import Mathlib

/-
Verification of the Sanctum GUI control-plane bridge:
the scan orchestrator (gui/src-tauri/src/antivirus.rs) and the IPC RPC
client (gui/src-tauri/src/ipc.rs), shallowly embedded in Lean.
-/

set_option autoImplicit false

namespace Sanctum

namespace um_engine

/-- Modelled from the spec: the findings collection carried by a finished
scan. `um_engine`'s result type is not under the GUI sources; the spec says
`Finished(result)` where `result` holds zero or more malicious-file
findings, and `antivirus.rs` accesses it as `v.scan_results` (a collection
supporting `is_empty`). Individual findings are opaque here, kept as
strings. -/
structure DirectoryResult where
  scan_results : List String
  deriving DecidableEq, Repr

/-- Modelled from the spec: `um_engine::State`, the remote engine's scan
lifecycle sum type (spec section 3 "ScanState"): `Idle`, `Scanning(progress)`
with an opaque progress snapshot, `Finished(result)`, and
`FinishedWithError(error)` with a human-readable description. -/
inductive State where
  | Idle : State
  | Scanning : Nat → State
  | Finished : DirectoryResult → State
  | FinishedWithError : String → State
  deriving DecidableEq, Repr

/-- Modelled from the spec: `scanner_cancel_scan` drives the engine out of a
running scan; its effect on engine state is engine-owned. `stop_scan` in
`antivirus.rs` discards its result unconditionally, so only the transition is
modelled: a running scan becomes idle, anything else is left unchanged. -/
def scanner_cancel_scan : State → State
  | State.Scanning _ => State.Idle
  | s => s

end um_engine

/-- Payload of a Tauri event emitted by `app_handle.emit`: either a string
(the "no results", "already running" and error messages) or the findings
value `&v` itself. -/
inductive Payload where
  | str : String → Payload
  | findings : um_engine.DirectoryResult → Payload
  deriving DecidableEq, Repr

/-- One emitted notification: `app_handle.emit(name, payload)`. -/
structure Event where
  name : String
  payload : Payload
  deriving DecidableEq, Repr

/-- `PathBuf` as used in `antivirus.rs`: an owned path value. -/
def PathBuf : Type := String

/-- `PathBuf::from(file_path)`: an infallible conversion from `String`; it
performs no validation of any kind. -/
def PathBuf.fromString (s : String) : PathBuf := s

/-- The body of the task spawned by `start_folder_scan`
(antivirus.rs lines 51-72): match on the `um_engine::State` returned by
`scanner_start_scan` and emit the corresponding notification events.
Mirrors the Rust `match` arm for arm; the final `State.Idle` case is the
source's wildcard arm `_ => ()`, which emits nothing. -/
def scanTaskEvents : um_engine.State → List Event
  | um_engine.State.Finished v =>
      if v.scan_results.isEmpty then
        [⟨"folder_scan_no_results", Payload.str ("No malicious files found.")⟩]
      else
        [⟨"folder_scan_malware_found", Payload.findings v⟩]
  | um_engine.State.FinishedWithError v =>
      [⟨"folder_scan_error", Payload.str v⟩]
  | um_engine.State.Scanning _ =>
      [⟨"folder_scan_error", Payload.str ("A scan is already in progress.")⟩]
  | um_engine.State.Idle => []

/-- Outcome of one `start_folder_scan` invocation: the value returned
immediately to the Tauri caller (`Result<String, ()>`), and the events the
detached `tokio::spawn` task emits once `scanner_start_scan` resolves. -/
structure StartScanOutcome where
  ret : Except Unit String
  spawnedEvents : List Event
  deriving Repr

/-- `start_folder_scan` (antivirus.rs lines 42-79). The caller passes
`file_path`; the engine's eventual `scanner_start_scan` result (computed in
the detached task, outside the GUI sources) is a parameter `scanResult`.
The Rust converts the string with `PathBuf::from` (no validation), spawns
the task, and returns `Ok(format!("Scan started..."))` at once. -/
def start_folder_scan (file_path : String) (scanResult : um_engine.State) :
    StartScanOutcome :=
  let _path : PathBuf := PathBuf.fromString file_path
  { ret := Except.ok ("Scan started...")
    spawnedEvents := scanTaskEvents scanResult }

/-- `stop_scan` (antivirus.rs lines 29-38): calls `scanner_cancel_scan` on
the engine, discards its result, and returns `Ok(())`. The pair is (value
returned to the caller, engine state after the cancel call). -/
def stop_scan (engineState : um_engine.State) :
    Except Unit Unit × um_engine.State :=
  (Except.ok (), um_engine.scanner_cancel_scan engineState)

/-- `check_page_state` (antivirus.rs lines 10-26): fetches the engine state
and returns `Ok(serde_json::to_string(&state).unwrap_or(String::new()))`.
The JSON serializer is a parameter (`none` models a `serde_json` failure),
so the `unwrap_or` coercion is visible. -/
def check_page_state (serialize : um_engine.State → Option String)
    (engineState : um_engine.State) : Except Unit String :=
  Except.ok ((serialize engineState).getD (""))

/-! IPC client model (gui/src-tauri/src/ipc.rs). -/

/-- One byte on the wire; pipe contents are inert data, no byte arithmetic
occurs, so bytes are plain naturals. -/
abbrev Byte : Type := Nat

/-- The kind carried by a `std::io::Error`, restricted to the kinds this
development distinguishes. `otherKind` stands for every remaining kind. -/
inductive IoErrorKind where
  | brokenPipe : IoErrorKind
  | unexpectedEof : IoErrorKind
  | invalidData : IoErrorKind
  | timedOut : IoErrorKind
  | otherKind : IoErrorKind
  deriving DecidableEq, Repr

/-- Which `io::ErrorKind`s signify a transport (read/write/closure) failure
as opposed to a protocol/decode failure: `serde_json`'s conversion into
`io::Error` reserves `InvalidData` for syntax and data (shape) errors, and
maps end-of-input to `UnexpectedEof`; every other kind arises from the I/O
path itself. -/
def IoErrorKind.isTransportKind : IoErrorKind → Bool
  | IoErrorKind.invalidData => false
  | _ => true

/-- A `std::io::Error`: a kind plus a message. -/
structure IoError where
  kind : IoErrorKind
  msg : String
  deriving DecidableEq, Repr

/-- `serde_json::error::Category`: the class of a `serde_json` error. -/
inductive JsonCategory where
  | ioCat : IoErrorKind → JsonCategory
  | synCat : JsonCategory
  | dataCat : JsonCategory
  | eofCat : JsonCategory
  deriving DecidableEq, Repr

/-- A `serde_json::Error`: its category plus a message. -/
structure JsonError where
  category : JsonCategory
  msg : String
  deriving DecidableEq, Repr

/-- The `From JsonError for io::Error` conversion applied by the `?`
operator in `send_ipc` (the function returns `io::Result<T>`):
syntax and data categories become `ErrorKind::InvalidData`, end-of-input
becomes `ErrorKind::UnexpectedEof`, and an I/O-category error keeps its
underlying kind. -/
def jsonErrorToIoError (e : JsonError) : IoError :=
  match e.category with
  | JsonCategory.ioCat k => ⟨k, e.msg⟩
  | JsonCategory.synCat => ⟨IoErrorKind.invalidData, e.msg⟩
  | JsonCategory.dataCat => ⟨IoErrorKind.invalidData, e.msg⟩
  | JsonCategory.eofCat => ⟨IoErrorKind.unexpectedEof, e.msg⟩

/-- An opaque `serde_json::Value` produced by `to_value`. -/
inductive JsonValue where
  | mk : String → JsonValue
  deriving DecidableEq, Repr

/-- `shared_std::ipc::CommandRequest`: the command name plus an optional
untyped argument value. -/
structure CommandRequest where
  command : String
  args : Option JsonValue
  deriving DecidableEq, Repr

/-- Result of one `send_ipc` call as observed by the caller: the call either
panics (an `unwrap` on a failed serialization), returns `Err` with an
`io::Error`, or returns `Ok` with a decoded `T`. -/
inductive IpcOutcome (T : Type) where
  | panicked : String → IpcOutcome T
  | err : IoError → IpcOutcome T
  | ok : T → IpcOutcome T
  deriving DecidableEq, Repr

/-- The environment one `send_ipc` call runs against: the behaviour of the
serde serializers/deserializer for the generic parameters `A` and `T`, and
of the named-pipe I/O. `pipeAvail` is what the remote side has written back;
`osChunk` is how many of those bytes the operating system hands over in the
single `read` call (a read never delivers more than is available, and the
code caps it at the 1024-byte buffer). `from_slice_on_empty` records the
JSON-parser fact that deserializing an empty byte slice fails with an
end-of-input error for every target type. -/
structure SendIpcEnv (A T : Type) where
  to_value : A → Except JsonError JsonValue
  to_vec : CommandRequest → Except JsonError (List Byte)
  write_all : List Byte → Except IoError Unit
  readErr : Option IoError
  pipeAvail : List Byte
  osChunk : Nat
  from_slice : List Byte → Except JsonError T
  from_slice_on_empty :
    from_slice [] = Except.error ⟨JsonCategory.eofCat, "EOF while parsing a value"⟩

/-- The byte slice `&buffer[..bytes_read]` that `send_ipc` passes to the
decoder: the single `read` fills a fixed `vec![0u8; 1024]` buffer, so it
delivers at most `min osChunk 1024` bytes of the pending response. -/
def receivedData {A T : Type} (env : SendIpcEnv A T) : List Byte :=
  env.pipeAvail.take (min env.osChunk 1024)

/-- The tail of `send_ipc` after the argument step (ipc.rs lines 71-89):
build the `CommandRequest`, `to_vec(&message)?`, `write_all(..).await?`,
`read(..).await?`, slice the buffer to the bytes read, and
`serde_json::from_slice(received_data)?`. Each `?` converts a `JsonError`
through `jsonErrorToIoError`. -/
def sendAfterArgs {A T : Type} (env : SendIpcEnv A T) (command : String)
    (argsValue : Option JsonValue) : IpcOutcome T :=
  let message : CommandRequest := ⟨command, argsValue⟩
  match env.to_vec message with
  | Except.error e => IpcOutcome.err (jsonErrorToIoError e)
  | Except.ok message_data =>
    match env.write_all message_data with
    | Except.error e => IpcOutcome.err e
    | Except.ok _ =>
      match env.readErr with
      | some e => IpcOutcome.err e
      | none =>
        match env.from_slice (receivedData env) with
        | Except.error e => IpcOutcome.err (jsonErrorToIoError e)
        | Except.ok t => IpcOutcome.ok t

/-- `IpcClient::send_ipc` (ipc.rs lines 59-91). The first step mirrors
`match args { Some(a) => Some(to_value(a).unwrap()), None => None }`:
a failed `to_value` is unwrapped, i.e. the call panics. -/
def send_ipc {A T : Type} (env : SendIpcEnv A T) (command : String)
    (args : Option A) : IpcOutcome T :=
  match args with
  | some a =>
    match env.to_value a with
    | Except.error e => IpcOutcome.panicked e.msg
    | Except.ok v => sendAfterArgs env command (some v)
  | none => sendAfterArgs env command none

/-! Theorems for the scan orchestrator claims. -/

/-- C1: when the background scan task resolves to `Finished(v)`, an empty
findings collection produces exactly the `folder_scan_no_results` event and
never `folder_scan_malware_found`; a non-empty one produces exactly the
`folder_scan_malware_found` event carrying the whole findings value `v`,
none dropped. -/
theorem C1_finished_notifications (fp : String) (v : um_engine.DirectoryResult) :
    (v.scan_results.isEmpty = true →
      (start_folder_scan fp (um_engine.State.Finished v)).spawnedEvents =
        [⟨"folder_scan_no_results", Payload.str ("No malicious files found.")⟩]) ∧
    (v.scan_results.isEmpty = false →
      (start_folder_scan fp (um_engine.State.Finished v)).spawnedEvents =
        [⟨"folder_scan_malware_found", Payload.findings v⟩]) := by
  constructor <;> intro h <;>
    simp [start_folder_scan, scanTaskEvents, h]

/-- C1 witness: both branches evaluated at concrete inputs. -/
theorem C1_finished_notifications_witness :
    ((um_engine.DirectoryResult.mk []).scan_results.isEmpty = true ∧
      (start_folder_scan ("/data/samples") (um_engine.State.Finished ⟨[]⟩)).spawnedEvents =
        [⟨"folder_scan_no_results", Payload.str ("No malicious files found.")⟩]) ∧
    ((um_engine.DirectoryResult.mk [("mal.exe")]).scan_results.isEmpty = false ∧
      (start_folder_scan ("/data/samples")
          (um_engine.State.Finished ⟨[("mal.exe")]⟩)).spawnedEvents =
        [⟨"folder_scan_malware_found", Payload.findings ⟨[("mal.exe")]⟩⟩]) :=
  ⟨⟨rfl, (C1_finished_notifications ("/data/samples") ⟨[]⟩).1 rfl⟩,
   ⟨rfl, (C1_finished_notifications ("/data/samples") ⟨[("mal.exe")]⟩).2 rfl⟩⟩

/-- C2 counterexample: the event emitted when the engine reports `Scanning`
is NOT distinct from the "scan error" event — both the `Scanning` branch
and the `FinishedWithError` branch emit an event named `folder_scan_error`,
so the claimed distinctness from the "scan error" event fails. -/
theorem C2_counterexample :
    ((start_folder_scan ("/data/samples")
        (um_engine.State.Scanning 0)).spawnedEvents.map Event.name =
      [("folder_scan_error")]) ∧
    ((start_folder_scan ("/data/samples")
        (um_engine.State.FinishedWithError ("disk failure"))).spawnedEvents.map Event.name =
      [("folder_scan_error")]) :=
  ⟨rfl, rfl⟩

/-- C2 amended: when the background task observes `Scanning`, exactly one
notification is emitted, named `folder_scan_error` with the string payload
"A scan is already in progress." — distinct from the `folder_scan_malware_found`
and `folder_scan_no_results` events (which are never emitted for that
invocation), but sharing its event name with the scan-error notification. -/
theorem C2_already_running_event (fp : String) (p : Nat) :
    (start_folder_scan fp (um_engine.State.Scanning p)).spawnedEvents =
      [⟨"folder_scan_error", Payload.str ("A scan is already in progress.")⟩] :=
  rfl

/-- C3 counterexample: no validation of the input path happens — even the
empty string, not a plausible filesystem location, is accepted: the call
still returns the acknowledgement and the scan task is still scheduled
(here it emits its event). -/
theorem C3_counterexample :
    ((start_folder_scan ("") (um_engine.State.Scanning 0)).ret =
      Except.ok ("Scan started...")) ∧
    (start_folder_scan ("") (um_engine.State.Scanning 0)).spawnedEvents ≠ [] :=
  ⟨rfl, by decide⟩

/-- C3 amended: `start_folder_scan` converts the input string to a path
value with `PathBuf::from` without validating it, schedules the scan-start
call on a detached task (whose emissions are exactly the match on the
engine's result), and returns immediately with the acknowledgement string
`Ok("Scan started...")` — never the scan result — for every path and every
eventual engine outcome. -/
theorem C3_start_returns_ack (fp : String) (s : um_engine.State) :
    ((start_folder_scan fp s).ret = Except.ok ("Scan started...")) ∧
    (start_folder_scan fp s).spawnedEvents = scanTaskEvents s :=
  ⟨rfl, rfl⟩

/-- C6: when the background scan task resolves to a variant other than
`Finished`, `FinishedWithError` or `Scanning` — concretely `Idle` — the
source's wildcard arm `_ => ()` emits no notification at all: the outcome
is silently dropped, contradicting the requirement that it be logged or
reported distinctly. -/
theorem C6_idle_silently_dropped :
    (start_folder_scan ("/data/samples") um_engine.State.Idle).spawnedEvents = [] :=
  rfl

/-- C7: `stop_scan` is idempotent at the caller-visible interface: for every
engine state, including `Idle` where no scan is active, it returns `Ok(())`,
never an error. -/
theorem C7_stop_scan_ok (s : um_engine.State) :
    (stop_scan s).1 = Except.ok () :=
  rfl

/-- C8: `check_page_state` never returns the error variant: for every
serializer behaviour and engine state it returns `Ok`, and when
serialization fails (`none`) the returned string is the empty string — the
failure is coerced to a default by `unwrap_or(String::new())`. -/
theorem C8_check_page_state_total (serialize : um_engine.State → Option String)
    (s : um_engine.State) :
    (∃ out, check_page_state serialize s = Except.ok out) ∧
    (serialize s = none → check_page_state serialize s = Except.ok ("")) := by
  refine ⟨⟨(serialize s).getD (""), rfl⟩, fun h => ?_⟩
  simp [check_page_state, h]

/-- C8 witness: a failing serializer on the `Idle` state yields `Ok("")`. -/
theorem C8_check_page_state_total_witness :
    (∃ out, check_page_state (fun _ => none) um_engine.State.Idle = Except.ok out) ∧
    check_page_state (fun _ => none) um_engine.State.Idle = Except.ok ("") :=
  ⟨(C8_check_page_state_total (fun _ => none) um_engine.State.Idle).1,
   (C8_check_page_state_total (fun _ => none) um_engine.State.Idle).2 rfl⟩

/-! Theorems for the IPC client claims. -/

/-- After the argument step, `send_ipc` can only return `err` or `ok`: the
only `unwrap` able to panic is the one on `to_value(a)`. -/
theorem sendAfterArgs_not_panicked {A T : Type} (env : SendIpcEnv A T)
    (command : String) (argsValue : Option JsonValue) (m : String) :
    sendAfterArgs env command argsValue ≠ IpcOutcome.panicked m := by
  cases h1 : env.to_vec ⟨command, argsValue⟩ with
  | error e => simp [sendAfterArgs, h1]
  | ok md =>
    cases h2 : env.write_all md with
    | error e => simp [sendAfterArgs, h1, h2]
    | ok u =>
      cases h3 : env.readErr with
      | some e => simp [sendAfterArgs, h1, h2, h3]
      | none =>
        cases h4 : env.from_slice (receivedData env) with
        | error e => simp [sendAfterArgs, h1, h2, h3, h4]
        | ok t => simp [sendAfterArgs, h1, h2, h3, h4]

/-- An environment in which the pipe write itself fails with an
`InvalidData`-kind I/O error: a pure transport failure. -/
def envWriteFail : SendIpcEnv Unit Unit where
  to_value := fun _ => Except.ok (JsonValue.mk (""))
  to_vec := fun _ => Except.ok []
  write_all := fun _ => Except.error ⟨IoErrorKind.invalidData, "x"⟩
  readErr := none
  pipeAvail := []
  osChunk := 0
  from_slice := fun _ =>
    Except.error ⟨JsonCategory.eofCat, "EOF while parsing a value"⟩
  from_slice_on_empty := rfl

/-- An environment in which transport succeeds and the received bytes fail
to decode as `T` with a data-category (shape mismatch) error. -/
def envDecodeFail : SendIpcEnv Unit Unit where
  to_value := fun _ => Except.ok (JsonValue.mk (""))
  to_vec := fun _ => Except.ok [123]
  write_all := fun _ => Except.ok ()
  readErr := none
  pipeAvail := [110, 117]
  osChunk := 2
  from_slice := fun bs =>
    if bs = [] then Except.error ⟨JsonCategory.eofCat, "EOF while parsing a value"⟩
    else Except.error ⟨JsonCategory.dataCat, "x"⟩
  from_slice_on_empty := rfl

/-- An environment in which the remote closes the connection before
responding: the write succeeds and the single read returns zero bytes. -/
def envRemoteClosed : SendIpcEnv Unit Unit where
  to_value := fun _ => Except.ok (JsonValue.mk (""))
  to_vec := fun _ => Except.ok [123]
  write_all := fun _ => Except.ok ()
  readErr := none
  pipeAvail := []
  osChunk := 0
  from_slice := fun _ =>
    Except.error ⟨JsonCategory.eofCat, "EOF while parsing a value"⟩
  from_slice_on_empty := rfl

/-- An environment in which argument serialization (`to_value`) fails. -/
def envToValueFail : SendIpcEnv Unit Unit where
  to_value := fun _ => Except.error ⟨JsonCategory.synCat, "serialize failed"⟩
  to_vec := fun _ => Except.ok [123]
  write_all := fun _ => Except.ok ()
  readErr := none
  pipeAvail := []
  osChunk := 0
  from_slice := fun _ =>
    Except.error ⟨JsonCategory.eofCat, "EOF while parsing a value"⟩
  from_slice_on_empty := rfl

/-- An environment whose pending response is 2000 bytes, longer than the
fixed 1024-byte receive buffer. -/
def envLongResponse : SendIpcEnv Unit Unit where
  to_value := fun _ => Except.ok (JsonValue.mk (""))
  to_vec := fun _ => Except.ok []
  write_all := fun _ => Except.ok ()
  readErr := none
  pipeAvail := List.replicate 2000 0
  osChunk := 2000
  from_slice := fun bs =>
    if bs = [] then Except.error ⟨JsonCategory.eofCat, "EOF while parsing a value"⟩
    else Except.error ⟨JsonCategory.synCat, "trailing characters"⟩
  from_slice_on_empty := rfl

/-- C4 counterexample: decode failures and transport failures are collapsed
into the single `io::Error` type, not reported as two distinct inspectable
classes — a transport write failure (in `envWriteFail`) and a decode
failure of the received bytes (in `envDecodeFail`) produce literally the
same error value `io::Error(InvalidData, "x")`. -/
theorem C4_counterexample :
    (send_ipc envWriteFail ("get_state") (none : Option Unit) =
      IpcOutcome.err ⟨IoErrorKind.invalidData, "x"⟩) ∧
    (send_ipc envDecodeFail ("get_state") (none : Option Unit) =
      IpcOutcome.err ⟨IoErrorKind.invalidData, "x"⟩) :=
  ⟨rfl, rfl⟩

/-- C4 amended: `send_ipc` folds a decode failure into the same `io::Error`
type used for transport failures via `serde_json`'s category mapping: a
syntax- or data-category decode failure surfaces as `Err` with kind
`InvalidData` (carrying the decoder's message), distinguishable from
transport failures only by that kind heuristic, not as a separate error
class. -/
theorem C4_decode_failure_mapped (A T : Type) (env : SendIpcEnv A T)
    (command : String) (message_data : List Byte) (e : JsonError)
    (hvec : env.to_vec ⟨command, none⟩ = Except.ok message_data)
    (hw : env.write_all message_data = Except.ok ())
    (hr : env.readErr = none)
    (hd : env.from_slice (receivedData env) = Except.error e)
    (hcat : e.category = JsonCategory.dataCat ∨ e.category = JsonCategory.synCat) :
    send_ipc env command none = IpcOutcome.err ⟨IoErrorKind.invalidData, e.msg⟩ := by
  have hk : jsonErrorToIoError e = ⟨IoErrorKind.invalidData, e.msg⟩ := by
    rcases hcat with h | h <;> simp [jsonErrorToIoError, h]
  simp [send_ipc, sendAfterArgs, hvec, hw, hr, hd, hk]

/-- C4 amended witness: the decode-failure environment evaluated concretely. -/
theorem C4_decode_failure_mapped_witness :
    send_ipc envDecodeFail ("get_state") (none : Option Unit) =
      IpcOutcome.err ⟨IoErrorKind.invalidData, "x"⟩ :=
  C4_decode_failure_mapped Unit Unit envDecodeFail ("get_state") [123]
    ⟨JsonCategory.dataCat, "x"⟩ rfl rfl rfl rfl (Or.inl rfl)

/-- C5: when the transport succeeds but the single read returns zero bytes
(the remote closed the connection), `send_ipc` returns the transport-class
error `io::Error(UnexpectedEof, ..)` — produced by the JSON parser's
end-of-input failure on the empty slice — and never a successfully decoded
value of `T`. -/
theorem C5_zero_read_is_transport_error (A T : Type) (env : SendIpcEnv A T)
    (command : String) (message_data : List Byte)
    (hvec : env.to_vec ⟨command, none⟩ = Except.ok message_data)
    (hw : env.write_all message_data = Except.ok ())
    (hr : env.readErr = none)
    (hzero : receivedData env = []) :
    (send_ipc env command none =
      IpcOutcome.err ⟨IoErrorKind.unexpectedEof, "EOF while parsing a value"⟩) ∧
    (IoErrorKind.unexpectedEof.isTransportKind = true) ∧
    ∀ t : T, send_ipc env command none ≠ IpcOutcome.ok t := by
  have hmain : send_ipc env command none =
      IpcOutcome.err ⟨IoErrorKind.unexpectedEof, "EOF while parsing a value"⟩ := by
    have hd := env.from_slice_on_empty
    rw [← hzero] at hd
    simp [send_ipc, sendAfterArgs, hvec, hw, hr, hd, jsonErrorToIoError]
  refine ⟨hmain, rfl, fun t h => ?_⟩
  rw [hmain] at h
  exact IpcOutcome.noConfusion h

/-- C5 witness: the remote-closed environment evaluated concretely. -/
theorem C5_zero_read_is_transport_error_witness :
    (send_ipc envRemoteClosed ("get_state") (none : Option Unit) =
      IpcOutcome.err ⟨IoErrorKind.unexpectedEof, "EOF while parsing a value"⟩) ∧
    (IoErrorKind.unexpectedEof.isTransportKind = true) ∧
    ∀ t : Unit, send_ipc envRemoteClosed ("get_state") (none : Option Unit) ≠
      IpcOutcome.ok t :=
  C5_zero_read_is_transport_error Unit Unit envRemoteClosed ("get_state") [123]
    rfl rfl rfl rfl

/-- C9: in `send_ipc`, when `args` is `Some(a)` and serializing `a` with
`to_value` fails, the call panics through `unwrap` instead of returning an
error result; when `args` is `None`, no argument serialization is attempted
and the call never panics. -/
theorem C9_args_unwrap_panics (A T : Type) (env : SendIpcEnv A T)
    (command : String) (a : A) (e : JsonError)
    (h : env.to_value a = Except.error e) :
    (send_ipc env command (some a) = IpcOutcome.panicked e.msg) ∧
    ∀ m, send_ipc env command (none : Option A) ≠ IpcOutcome.panicked m := by
  constructor
  · simp [send_ipc, h]
  · intro m
    exact sendAfterArgs_not_panicked env command none m

/-- C9 witness: the failing-serializer environment evaluated concretely. -/
theorem C9_args_unwrap_panics_witness :
    (send_ipc envToValueFail ("scanner_start_folder_scan") (some ()) =
      IpcOutcome.panicked ("serialize failed")) ∧
    ∀ m, send_ipc envToValueFail ("scanner_start_folder_scan") (none : Option Unit) ≠
      IpcOutcome.panicked m :=
  C9_args_unwrap_panics Unit Unit envToValueFail ("scanner_start_folder_scan") ()
    ⟨JsonCategory.synCat, "serialize failed"⟩ rfl

/-- C10: `send_ipc` reads at most 1024 bytes of response per call: the bytes
handed to the decoder are a prefix of the pending response of length at
most 1024 (the fixed buffer size), and the call's outcome is exactly the
decode of that truncated prefix. -/
theorem C10_read_truncation (A T : Type) (env : SendIpcEnv A T)
    (command : String) (message_data : List Byte)
    (hvec : env.to_vec ⟨command, none⟩ = Except.ok message_data)
    (hw : env.write_all message_data = Except.ok ())
    (hr : env.readErr = none) :
    ((receivedData env).length ≤ 1024) ∧
    (receivedData env <+: env.pipeAvail) ∧
    send_ipc env command none =
      (match env.from_slice (receivedData env) with
       | Except.ok t => IpcOutcome.ok t
       | Except.error e => IpcOutcome.err (jsonErrorToIoError e)) := by
  refine ⟨?_, ?_, ?_⟩
  · have h := List.length_take (min env.osChunk 1024) env.pipeAvail
    simp only [receivedData, h]
    omega
  · exact List.take_prefix _ _
  · simp only [send_ipc, sendAfterArgs, hvec, hw, hr]
    split <;> simp_all

/-- C10 witness: a 2000-byte pending response is truncated to 1024 bytes. -/
theorem C10_read_truncation_witness :
    ((receivedData envLongResponse).length ≤ 1024) ∧
    (receivedData envLongResponse <+: envLongResponse.pipeAvail) ∧
    send_ipc envLongResponse ("check_page_state") none =
      (match envLongResponse.from_slice (receivedData envLongResponse) with
       | Except.ok t => IpcOutcome.ok t
       | Except.error e => IpcOutcome.err (jsonErrorToIoError e)) :=
  C10_read_truncation Unit Unit envLongResponse ("check_page_state") []
    rfl rfl rfl

end Sanctum
